import Mathlib

/-!
Verification of the UK rental-property tax assistant against its
natural-language specification.

The development shallowly embeds the program's core: the domain model
(`types.ts`), the tax-year resolver, the Tax Estimation Engine
(`TaxEstimator.tsx`), the deduplication identities and import/manual-entry
operations (`TransactionManager.tsx`), the invoice matching and link
maintenance (`InvoiceManager.tsx`), and the categorization fallback logic
(`geminiService.ts`).

Modelling conventions:
* Monetary amounts are exact rationals (the spec, section 4.4, mandates a
  fixed-point/decimal representation for monetary arithmetic; all scenario
  values are far from any floating-point boundary).
* JavaScript string comparison (`<=` on strings, used for the period test)
  is code-unit lexicographic order, embedded as `lexLe` over the character
  list; all data compared this way is ASCII, where JS code units and Lean
  characters agree.
* `btoa` (used for the deterministic identities) is standard base64 over
  the byte values of the characters; all identity inputs are ASCII.
* `Array.prototype.sort` with the recency comparator is stable (ES2019);
  any stable sort by the same key computes the same list, so it is embedded
  as a stable insertion sort by the comparator's key.
-/

set_option maxHeartbeats 1600000

namespace RentalTax

/-- The closed HMRC category enumeration of `types.ts`. The member list is
fixed by the total record `XeroAccountCodes : Record<HMRCCategory, string>`
in `exportService.ts`, which enumerates every member, including the
distinguished personal (`PERSONAL_000`, "not deductible" per its comment)
and `UNCATEGORIZED` codes. -/
inductive HMRCCategory where
  | RENTAL_INC_001
  | REPAIRS_101
  | MGMT_201
  | INSUR_301
  | UTIL_401
  | COUNCIL_501
  | ADVERT_501
  | PROF_601
  | MORT_INT_701
  | TRAVEL_801
  | MISC_901
  | PERSONAL_000
  | UNCATEGORIZED
  deriving DecidableEq, Repr

/-- Transaction reconciliation status: `'reconciled' | 'pending' | 'flagged'`. -/
inductive TransStatus where
  | reconciled
  | pending
  | flagged
  deriving DecidableEq, Repr

/-- Transaction origin: `'bank_upload' | 'manual'`. -/
inductive TransSource where
  | bank_upload
  | manual
  deriving DecidableEq, Repr

/-- The owner-split tag `'D' | 'J'`. -/
inductive OwnerTag where
  | D
  | J
  deriving DecidableEq, Repr

/-- Invoice status: `'matched' | 'unmatched' | 'processing'`. -/
inductive InvoiceStatus where
  | matched
  | unmatched
  | processing
  deriving DecidableEq, Repr

/-- The `Transaction` record of `types.ts` (the `base64Image`-free fields). -/
structure Transaction where
  id : String
  date : String
  description : String
  amount : ℚ
  propertyId : String
  category : HMRCCategory
  status : TransStatus
  source : TransSource
  matchedInvoiceId : Option String
  tag : Option OwnerTag
  deriving DecidableEq, Repr

/-- The `Invoice` record of `types.ts` (the document payload is omitted:
no core computation reads it). -/
structure Invoice where
  id : String
  date : String
  vendor : String
  amount : ℚ
  description : String
  status : InvoiceStatus
  matchedTransactionId : Option String
  deriving DecidableEq, Repr

/-- The `Property` record of `types.ts`. -/
structure Property where
  id : String
  name : String
  address : String
  keywords : String
  deriving DecidableEq, Repr

/-- JavaScript string comparison is lexicographic on code units; both sides
here are ASCII, where code units coincide with character codes. -/
def lexLe : List Char → List Char → Bool
  | [], _ => true
  | _ :: _, [] => false
  | a :: as, b :: bs =>
      if a.toNat < b.toNat then true
      else if b.toNat < a.toNat then false
      else lexLe as bs

/-- The JS `a <= b` comparison on strings. -/
def jsLe (a b : String) : Bool := lexLe a.data b.data

/-- The union type `TaxYear = '2023-2024' | ... | '2026-2027'` of `types.ts`. -/
inductive TaxYear where
  | y2023_2024
  | y2024_2025
  | y2025_2026
  | y2026_2027
  deriving DecidableEq, Repr

/-- The `parseInt(year.split('-')[0])` of `getTaxYearDates`, resolved per
member of the closed union. -/
def TaxYear.startYear : TaxYear → Nat
  | .y2023_2024 => 2023
  | .y2024_2025 => 2024
  | .y2025_2026 => 2025
  | .y2026_2027 => 2026

/-- The record `getTaxYearDates` returns. Its source field `end` is a Lean
keyword, rendered here as `endDate`. -/
structure TaxYearDates where
  start : String
  endDate : String
  label : String
  deriving DecidableEq, Repr

/-- The `getTaxYearDates` of `types.ts`: 6 April through 5 April of the
following year. -/
def getTaxYearDates (year : TaxYear) : TaxYearDates :=
  { start := toString year.startYear ++ "-04-06"
    endDate := toString (year.startYear + 1) ++ "-04-05"
    label := toString year.startYear ++ "/" ++ (toString (year.startYear + 1)).drop 2 }

/-- The `isDateInTaxYear` of `types.ts`: `dateStr >= start && dateStr <= end`
under JS string comparison. -/
def isDateInTaxYear (dateStr : String) (year : TaxYear) : Bool :=
  jsLe (getTaxYearDates year).start dateStr && jsLe dateStr (getTaxYearDates year).endDate

/-- The JS `t.category === HMRCCategory.MORT_INT_701` test, written as an
enum pattern match. -/
def isMortgageInterest : HMRCCategory → Bool
  | .MORT_INT_701 => true
  | _ => false

/-- The JS `t.category === HMRCCategory.PERSONAL_000` test. -/
def isPersonal : HMRCCategory → Bool
  | .PERSONAL_000 => true
  | _ => false

/-- The JS `t.category === HMRCCategory.UNCATEGORIZED` test. -/
def isUncategorized : HMRCCategory → Bool
  | .UNCATEGORIZED => true
  | _ => false

/-! The Tax Estimation Engine (`TaxEstimator.tsx`, `estimate`). The steps of
the `useMemo` body are factored into named functions of the same local
names; `estimate` assembles them exactly as the source does. -/

/-- The tax-year filter at the top of `estimate`. -/
def yearTransactions (transactions : List Transaction) (taxYear : TaxYear) : List Transaction :=
  transactions.filter (fun t => isDateInTaxYear t.date taxYear)

/-- Step 1 of `estimate`: `rentalIncome`, the sum of positive amounts. -/
def rentalIncome (yearTs : List Transaction) : ℚ :=
  ((yearTs.filter (fun t => decide (0 < t.amount))).map (fun t => t.amount)).sum

/-- Step 2 of `estimate`: `financeCosts`, the summed absolute amounts of the
`MORT_INT_701` category. -/
def financeCosts (yearTs : List Transaction) : ℚ :=
  ((yearTs.filter (fun t => isMortgageInterest t.category)).map
    (fun t => |t.amount|)).sum

/-- Step 2 of `estimate`, continued: `otherExpenses`, the summed absolute
amounts of negative transactions whose category is not `MORT_INT_701`.
Note the filter excludes only the finance-cost category. -/
def otherExpenses (yearTs : List Transaction) : ℚ :=
  ((yearTs.filter (fun t =>
      decide (t.amount < 0) && !isMortgageInterest t.category)).map
    (fun t => |t.amount|)).sum

/-- Follows the spec's words (section 4.4 step 3 and section 8), for
comparison with the source's `otherExpenses`: "sum of absolute amounts of
negative transactions excluding both the finance-cost category and the
personal category", with the section 8 property additionally excluding the
uncategorized category. -/
def otherExpensesSpec (yearTs : List Transaction) : ℚ :=
  ((yearTs.filter (fun t =>
      decide (t.amount < 0) && !isMortgageInterest t.category
        && !isPersonal t.category && !isUncategorized t.category)).map
    (fun t => |t.amount|)).sum

/-- Step 4 of `estimate`: the personal allowance, tapered by one unit per
two units of total income over the 100000 threshold, floored at zero. -/
def allowanceFor (totalIncome : ℚ) : ℚ :=
  if 100000 < totalIncome then max 0 (12570 - (totalIncome - 100000) / 2) else 12570

/-- The `taxableIncome` of `estimate`. -/
def taxableIncomeFor (totalIncome : ℚ) : ℚ :=
  max 0 (totalIncome - allowanceFor totalIncome)

/-- The `basicBand` constant of `estimate`. -/
def basicBand : ℚ := 37700

/-- The `higherBand` constant of `estimate`, written as in the source. -/
def higherBand : ℚ := 125140 - 50270

/-- The `amountInBasic` of `estimate`. -/
def amountInBasic (taxableIncome : ℚ) : ℚ := min taxableIncome basicBand

/-- The `basicTax` of `estimate`. -/
def basicTaxOf (taxableIncome : ℚ) : ℚ := amountInBasic taxableIncome * 0.20

/-- The `remainingTaxable` after the basic band is consumed. -/
def remainingAfterBasic (taxableIncome : ℚ) : ℚ :=
  taxableIncome - amountInBasic taxableIncome

/-- The `higherTax` of `estimate` (computed only when taxable income
remains after the basic band). -/
def higherTaxOf (taxableIncome : ℚ) : ℚ :=
  if 0 < remainingAfterBasic taxableIncome then
    min (remainingAfterBasic taxableIncome) higherBand * 0.40
  else 0

/-- The `remainingTaxable` after the higher band is consumed. -/
def remainingAfterHigher (taxableIncome : ℚ) : ℚ :=
  remainingAfterBasic taxableIncome -
    (if 0 < remainingAfterBasic taxableIncome then
      min (remainingAfterBasic taxableIncome) higherBand
    else 0)

/-- The `additionalTax` of `estimate`. -/
def additionalTaxOf (taxableIncome : ℚ) : ℚ :=
  if 0 < remainingAfterHigher taxableIncome then
    remainingAfterHigher taxableIncome * 0.45
  else 0

/-- The `taxBeforeRelief` of `estimate`. -/
def taxBeforeReliefOf (taxableIncome : ℚ) : ℚ :=
  basicTaxOf taxableIncome + higherTaxOf taxableIncome + additionalTaxOf taxableIncome

/-- Gross tax before relief as a function of total income: allowance taper,
then the three bands (steps 4 and 5 of `estimate`). -/
def grossTaxAt (totalIncome : ℚ) : ℚ :=
  taxBeforeReliefOf (taxableIncomeFor totalIncome)

/-- The value object `estimate` returns. -/
structure TaxEstimate where
  rentalIncome : ℚ
  otherExpenses : ℚ
  financeCosts : ℚ
  netCashFlow : ℚ
  taxableProfit : ℚ
  estimatedTaxBeforeRelief : ℚ
  financeCostRelief : ℚ
  finalEstimatedTax : ℚ
  allowance : ℚ
  totalIncome : ℚ
  taxableIncome : ℚ
  basicTax : ℚ
  higherTax : ℚ
  additionalTax : ℚ
  deriving DecidableEq, Repr

/-- The `estimate` computation of `TaxEstimator.tsx` (`otherIncome` is the
supplemental-income input). -/
def estimate (transactions : List Transaction) (taxYear : TaxYear) (otherIncome : ℚ) :
    TaxEstimate :=
  let yearTs := yearTransactions transactions taxYear
  let ri := rentalIncome yearTs
  let fc := financeCosts yearTs
  let oe := otherExpenses yearTs
  let taxableProfit := max 0 (ri - oe)
  let netCashFlow := ri - oe - fc
  let totalIncome := taxableProfit + otherIncome
  let allowance := allowanceFor totalIncome
  let taxableIncome := taxableIncomeFor totalIncome
  let taxBeforeRelief := taxBeforeReliefOf taxableIncome
  let financeCostRelief := min (fc * 0.20) taxBeforeRelief
  let finalEstimatedTax := max 0 (taxBeforeRelief - financeCostRelief)
  { rentalIncome := ri
    otherExpenses := oe
    financeCosts := fc
    netCashFlow := netCashFlow
    taxableProfit := taxableProfit
    estimatedTaxBeforeRelief := taxBeforeRelief
    financeCostRelief := financeCostRelief
    finalEstimatedTax := finalEstimatedTax
    allowance := allowance
    totalIncome := totalIncome
    taxableIncome := taxableIncome
    basicTax := basicTaxOf taxableIncome
    higherTax := higherTaxOf taxableIncome
    additionalTax := additionalTaxOf taxableIncome }

/-! Concrete period transaction sets for the scenario claims. -/

/-- The section 8 tax scenario's transaction set: gross income 12000, other
expenses 2000, finance costs 5000, all dated inside the 2024/25 year. -/
def c5Transactions : List Transaction :=
  [{ id := "t1", date := "2024-06-01", description := "Rent received", amount := 12000,
     propertyId := "p1", category := .RENTAL_INC_001, status := .pending,
     source := .bank_upload, matchedInvoiceId := none, tag := none },
   { id := "t2", date := "2024-07-01", description := "Boiler repair", amount := -2000,
     propertyId := "p1", category := .REPAIRS_101, status := .pending,
     source := .bank_upload, matchedInvoiceId := none, tag := none },
   { id := "t3", date := "2024-08-01", description := "Mortgage interest", amount := -5000,
     propertyId := "p1", category := .MORT_INT_701, status := .pending,
     source := .bank_upload, matchedInvoiceId := none, tag := none }]

/-- A period set holding a personal-category expense of 100, an
uncategorized expense of 50 and a repairs expense of 30. -/
def c1Transactions : List Transaction :=
  [{ id := "u1", date := "2024-06-01", description := "Holiday", amount := -100,
     propertyId := "p1", category := .PERSONAL_000, status := .pending,
     source := .bank_upload, matchedInvoiceId := none, tag := none },
   { id := "u2", date := "2024-07-01", description := "Card payment", amount := -50,
     propertyId := "p1", category := .UNCATEGORIZED, status := .pending,
     source := .bank_upload, matchedInvoiceId := none, tag := none },
   { id := "u3", date := "2024-08-01", description := "Paint", amount := -30,
     propertyId := "p1", category := .REPAIRS_101, status := .pending,
     source := .bank_upload, matchedInvoiceId := none, tag := none }]

/-! The Reconciliation and Deduplication Engine, part 1: deterministic
identities (`TransactionManager.tsx`). The source computes
`btoa(<template>).slice(0, 16)`; `btoa` is base64 over the byte values of
the characters (all identity inputs are ASCII). -/

/-- The base64 output alphabet. -/
def base64Alphabet : List Char :=
  "ABCDEFGHIJKLMNOPQRSTUVWXYZabcdefghijklmnopqrstuvwxyz0123456789+/".data

/-- The base64 digit for a 6-bit value. -/
def b64digit (n : Nat) : Char := base64Alphabet.getD n 'A'

/-- Standard base64 of a byte list, with padding, as `btoa` produces. -/
def btoaBytes : List Nat → List Char
  | [] => []
  | [a] => [b64digit (a / 4), b64digit (a % 4 * 16), '=', '=']
  | [a, b] => [b64digit (a / 4), b64digit (a % 4 * 16 + b / 16), b64digit (b % 16 * 4), '=']
  | a :: b :: c :: rest =>
      b64digit (a / 4) :: b64digit (a % 4 * 16 + b / 16) ::
        b64digit (b % 16 * 4 + c / 64) :: b64digit (c % 64) :: btoaBytes rest

/-- The JS `btoa` on an ASCII string. -/
def btoa (s : String) : String := String.mk (btoaBytes (s.data.map Char.toNat))

/-- The JS `s.slice(0, 16)`. -/
def slice16 (s : String) : String := String.mk (s.data.take 16)

/-- The import identity of `processImportedData`:
`btoa(date + "-" + description + "-" + amount).slice(0, 16)`. The
`amountStr` argument is the JS decimal rendering of the row's numeric
amount, as template interpolation produces it. -/
def deterministicIdImport (date description amountStr : String) : String :=
  slice16 (btoa (date ++ "-" ++ description ++ "-" ++ amountStr))

/-- The manual-entry identity of `handleManualAdd`:
`btoa("manual-" + date + "-" + desc + "-" + amount + "-" + Date.now()).slice(0, 16)`,
with `nowStr` the decimal rendering of the creation timestamp. -/
def deterministicIdManual (date description amountStr nowStr : String) : String :=
  slice16 (btoa ("manual-" ++ date ++ "-" ++ description ++ "-" ++ amountStr ++ "-" ++ nowStr))

/-! Import (`processImportedData`) and manual entry (`handleManualAdd`). -/

/-- One `{date, description, amount}` row produced by the statement
extractor. `amountStr` is the JS decimal rendering of `amount`, used by the
identity template. -/
structure ImportItem where
  date : String
  description : String
  amount : ℚ
  amountStr : String
  deriving DecidableEq, Repr

/-- The validated classification result consumed by the import loop:
`{category, propertyId?}` (the confidence plays no role there). -/
structure AIResult where
  category : HMRCCategory
  propertyId : Option String
  deriving DecidableEq, Repr

/-- The property-assignment fallback of `processImportedData`: keep the
classifier's property id only when truthy and present in the list, else the
first known property, else the empty string. -/
def assignedPropertyId (aiResult : AIResult) (properties : List Property) : String :=
  match aiResult.propertyId with
  | some pid =>
      if pid ≠ "" ∧ properties.any (fun p => p.id == pid) then pid
      else ((properties.head?.map Property.id).getD "")
  | none => ((properties.head?.map Property.id).getD "")

/-- The transaction record `processImportedData` builds for a fresh row:
note status `pending` and source `bank_upload`. -/
def mkImportedTransaction (item : ImportItem) (aiResult : AIResult)
    (properties : List Property) : Transaction :=
  { id := deterministicIdImport item.date item.description item.amountStr
    date := item.date
    description := item.description
    amount := item.amount
    propertyId := assignedPropertyId aiResult properties
    category := aiResult.category
    status := .pending
    source := .bank_upload
    matchedInvoiceId := none
    tag := none }

/-- The `processImportedData` of `TransactionManager.tsx` as a state
transformer: rows whose deterministic identity is already present in the
stored set are skipped and counted; the rest are classified, built with
`mkImportedTransaction` and appended. The duplicate check reads the set of
ids captured before the batch, as the source does. Returns (new stored
list, added count, skipped count). -/
def processImportedData (transactions : List Transaction) (dataItems : List ImportItem)
    (classify : ImportItem → AIResult) (properties : List Property) :
    List Transaction × Nat × Nat :=
  let existingIds := transactions.map Transaction.id
  let results := dataItems.filterMap (fun item =>
    if existingIds.contains (deterministicIdImport item.date item.description item.amountStr)
    then none
    else some (mkImportedTransaction item (classify item) properties))
  let skipped := (dataItems.filter (fun item =>
    existingIds.contains (deterministicIdImport item.date item.description item.amountStr))).length
  (transactions ++ results, results.length, skipped)

/-- The transaction `handleManualAdd` builds and appends (after its
`isNaN`/empty-description guard passes): status `reconciled`, source
`manual`. -/
def handleManualAddTransaction (manualDate manualDesc : String) (amount : ℚ)
    (amountStr : String) (manualPropId : String) (manualCat : HMRCCategory)
    (manualTag : Option OwnerTag) (nowStr : String) : Transaction :=
  { id := deterministicIdManual manualDate manualDesc amountStr nowStr
    date := manualDate
    description := manualDesc
    amount := amount
    propertyId := manualPropId
    category := manualCat
    status := .reconciled
    source := .manual
    matchedInvoiceId := none
    tag := manualTag }

/-! The shared record store and its mutations (`TransactionManager.tsx`,
`InvoiceManager.tsx`). -/

/-- The whole-collection snapshot the mutations act on. -/
structure RecordState where
  transactions : List Transaction
  invoices : List Invoice
  deriving DecidableEq, Repr

/-- The single-id branch of `executeDelete` in `TransactionManager.tsx`:
it filters the transaction list only; the invoice list is untouched. -/
def executeDeleteSingle (s : RecordState) (deleteTarget : String) : RecordState :=
  { s with transactions := s.transactions.filter (fun t => !(t.id == deleteTarget)) }

/-- The bulk branch of `executeDelete`: removes every selected id; the
invoice list is untouched. -/
def executeDeleteBulk (s : RecordState) (selectedIds : List String) : RecordState :=
  { s with transactions := s.transactions.filter (fun t => !(selectedIds.contains t.id)) }

/-- The `toggleMatch` of `InvoiceManager.tsx`: flips the status of the
addressed transaction between `reconciled` and `pending`, with no guard on
an existing invoice link. -/
def toggleMatch (s : RecordState) (id : String) : RecordState :=
  { s with transactions := s.transactions.map (fun t =>
      if t.id == id then
        { t with status :=
            if t.status == TransStatus.reconciled then TransStatus.pending
            else TransStatus.reconciled }
      else t) }

/-- The `deleteInvoice` of `InvoiceManager.tsx`: clears the reciprocal link
on the matched transaction (resetting it to `pending`) and removes the
invoice. -/
def deleteInvoice (s : RecordState) (id : String) : RecordState :=
  match s.invoices.find? (fun inv => inv.id == id) with
  | some invoiceToDelete =>
      match invoiceToDelete.matchedTransactionId with
      | some tid =>
          { transactions := s.transactions.map (fun t =>
              if t.id == tid then { t with matchedInvoiceId := none, status := .pending }
              else t)
            invoices := s.invoices.filter (fun inv => !(inv.id == id)) }
      | none => { s with invoices := s.invoices.filter (fun inv => !(inv.id == id)) }
  | none => { s with invoices := s.invoices.filter (fun inv => !(inv.id == id)) }

/-- Link symmetry (spec, section 8): every `matched` invoice names an
existing `reconciled` transaction that reciprocates the link, and every
transaction holding an invoice link is named back by an existing `matched`
invoice. -/
def linkSymmetricB (s : RecordState) : Bool :=
  s.invoices.all (fun inv =>
    !(inv.status == InvoiceStatus.matched) ||
      (match inv.matchedTransactionId with
       | some tid => s.transactions.any (fun t =>
           t.id == tid && t.status == TransStatus.reconciled &&
             t.matchedInvoiceId == some inv.id)
       | none => false)) &&
  s.transactions.all (fun t =>
    match t.matchedInvoiceId with
    | some iid => s.invoices.any (fun inv =>
        inv.id == iid && inv.status == InvoiceStatus.matched &&
          inv.matchedTransactionId == some t.id)
    | none => true)

/-- A reconciled transaction linked to the invoice below. -/
def c2Transaction : Transaction :=
  { id := "t1", date := "2024-06-15", description := "Plumber", amount := -45.05,
    propertyId := "p1", category := .REPAIRS_101, status := .reconciled,
    source := .bank_upload, matchedInvoiceId := some "i1", tag := none }

/-- A matched invoice linked to the transaction above. -/
def c2Invoice : Invoice :=
  { id := "i1", date := "2024-06-10", vendor := "Plumber Ltd", amount := 45,
    description := "Repair", status := .matched, matchedTransactionId := some "t1" }

/-- A store holding one properly matched invoice and transaction pair. -/
def c2State : RecordState :=
  { transactions := [c2Transaction], invoices := [c2Invoice] }

/-! The Categorization Orchestrator (`geminiService.ts`,
`categorizeTransaction`). The external call and the JSON text extraction
are the boundary: the embedding takes the extraction outcome as input.
`robustJsonParse` returns the parsed object, or `{}` when no JSON can be
extracted (modelled as the all-absent payload); a thrown call is the
`catch` branch. -/

/-- The fields of the payload the orchestrator reads. An absent field is
`none`; JS falsiness makes the empty string and 0 act like absence. -/
structure ParsedPayload where
  category : Option String
  propertyId : Option String
  confidence : Option ℚ
  deriving DecidableEq, Repr

/-- The result shape of `categorizeTransaction`. The category is kept as
the raw string the collaborator returned (the source casts it unchecked). -/
structure CategorizeResult where
  category : String
  propertyId : Option String
  confidence : ℚ
  deriving DecidableEq, Repr

/-- The known enumeration's codes, as strings (the members of
`HMRCCategory` in `types.ts`). -/
def knownCategoryCodes : List String :=
  ["RENTAL_INC_001", "REPAIRS_101", "MGMT_201", "INSUR_301", "UTIL_401",
   "COUNCIL_501", "ADVERT_501", "PROF_601", "MORT_INT_701", "TRAVEL_801",
   "MISC_901", "PERSONAL_000", "UNCATEGORIZED"]

/-- Membership in the known enumeration. -/
def isKnownCategory (code : String) : Bool := knownCategoryCodes.contains code

/-- The result construction of `categorizeTransaction` lines 75-80:
`parsed.category || UNCATEGORIZED`, `parsed.propertyId || undefined`,
`parsed.confidence || 0.5`, each by JS truthiness. -/
def categorizeFromParsed (parsed : ParsedPayload) : CategorizeResult :=
  { category :=
      match parsed.category with
      | some c => if c == "" then "UNCATEGORIZED" else c
      | none => "UNCATEGORIZED"
    propertyId :=
      match parsed.propertyId with
      | some p => if p == "" then none else some p
      | none => none
    confidence :=
      match parsed.confidence with
      | some q => if q == 0 then 0.5 else q
      | none => 0.5 }

/-- The outcome of the classifier call: `Except.error` is the `catch`
branch; `Except.ok none` is a response from which `robustJsonParse` could
extract no JSON (it returns `{}`); `Except.ok (some parsed)` is an
extracted payload. -/
def categorizeTransactionResult (outcome : Except Unit (Option ParsedPayload)) :
    CategorizeResult :=
  match outcome with
  | .error _ => { category := "UNCATEGORIZED", propertyId := none, confidence := 0 }
  | .ok none => categorizeFromParsed { category := none, propertyId := none, confidence := none }
  | .ok (some parsed) => categorizeFromParsed parsed

/-! Invoice-to-transaction matching (`InvoiceManager.tsx`, `processFile`).
The source compares `new Date(x).getTime()` values; for the canonical
`YYYY-MM-DD` strings the system normalizes to (spec, section 4.1), that is
UTC midnight: 86400000 times the civil day number. The day number is the
standard civil-from-date computation; an unparsable date is `none`,
matching the `NaN` behaviour (every `NaN` comparison is false, so such a
candidate never matches). -/

/-- Numeric value of a decimal digit character. -/
def digitVal (c : Char) : Nat := c.toNat - 48

/-- The Gregorian leap-year rule. -/
def isLeapYear (y : Nat) : Bool := (y % 4 == 0 && y % 100 != 0) || y % 400 == 0

/-- Days in a month, for validity checking as `Date.parse` performs it. -/
def daysInMonth (y m : Nat) : Nat :=
  if m == 2 then (if isLeapYear y then 29 else 28)
  else if m == 4 || m == 6 || m == 9 || m == 11 then 30
  else 31

/-- Parse a canonical `YYYY-MM-DD` string into a (year, month, day)
triple; anything else is `none` (JS yields an invalid date). -/
def parseDate (s : String) : Option (Int × Int × Int) :=
  match s.data with
  | [y1, y2, y3, y4, '-', m1, m2, '-', d1, d2] =>
      if y1.isDigit && y2.isDigit && y3.isDigit && y4.isDigit &&
          m1.isDigit && m2.isDigit && d1.isDigit && d2.isDigit then
        let y : Nat := digitVal y1 * 1000 + digitVal y2 * 100 + digitVal y3 * 10 + digitVal y4
        let m : Nat := digitVal m1 * 10 + digitVal m2
        let d : Nat := digitVal d1 * 10 + digitVal d2
        if 1 ≤ m && m ≤ 12 && 1 ≤ d && d ≤ daysInMonth y m then
          some (Int.ofNat y, Int.ofNat m, Int.ofNat d)
        else none
      else none
  | _ => none

/-- Civil date to days since 1970-01-01 (the standard era-based
computation, with truncated division as in its reference form; for the
years handled here every operand is nonnegative). -/
def daysFromCivil (year m d : Int) : Int :=
  let y := if m ≤ 2 then year - 1 else year
  let era := Int.tdiv (if 0 ≤ y then y else y - 399) 400
  let yoe := y - era * 400
  let doy := Int.tdiv (153 * (if 2 < m then m - 3 else m + 9) + 2) 5 + d - 1
  let doe := yoe * 365 + Int.tdiv yoe 4 - Int.tdiv yoe 100 + doy
  era * 146097 + doe - 719468

/-- The JS `new Date(s).getTime()` for a canonical date-only string:
UTC-midnight milliseconds; `none` stands for `NaN`. -/
def getTime (s : String) : Option Int :=
  (parseDate s).map (fun ymd => daysFromCivil ymd.1 ymd.2.1 ymd.2.2 * (1000 * 60 * 60 * 24))

/-- The `Math.ceil(a / b)` of the source for nonnegative exact inputs. -/
def ceilDivNat (a b : Nat) : Nat := (a + b - 1) / b

/-- The candidate test inside `processFile`: skip already-linked
transactions, then require the amount within the 0.10 tolerance and the
absolute day gap (ceiling of the millisecond gap over a day) at most 7.
A `NaN` date on either side fails the comparison, as in JS. -/
def matchPred (newInvoice : Invoice) (t : Transaction) : Bool :=
  !t.matchedInvoiceId.isSome &&
    decide (|(|t.amount|) - newInvoice.amount| < 0.10) &&
    (match getTime t.date, getTime newInvoice.date with
     | some tDate, some iDate =>
        decide (ceilDivNat (tDate - iDate).natAbs (1000 * 60 * 60 * 24) ≤ 7)
     | _, _ => false)

/-- The sort key of the `expenseTransactions` comparator
(`new Date(t.date).getTime()`; an invalid date's `NaN` ordering is
unspecified in JS and mapped to 0 here — all data of interest parses). -/
def dateKey (t : Transaction) : Int := (getTime t.date).getD 0

/-- The comparator `(a, b) => key(b) - key(a)` orders by descending key;
`recencyLe a b` holds when `a` may stay before `b`. -/
def recencyLe (a b : Transaction) : Bool := decide (dateKey b ≤ dateKey a)

/-- Stable insertion used to model `Array.prototype.sort` (stable since
ES2019; any stable sort by one comparator computes the same list). -/
def sortInsert {α : Type} (le : α → α → Bool) (a : α) : List α → List α
  | [] => [a]
  | b :: bs => if le a b then a :: b :: bs else b :: sortInsert le a bs

/-- Stable sort by the comparator. -/
def stableSortBy {α : Type} (le : α → α → Bool) : List α → List α
  | [] => []
  | a :: as => sortInsert le a (stableSortBy le as)

/-- The `expenseTransactions` memo of `InvoiceManager.tsx`: period-filtered
negative-amount transactions excluding the personal and uncategorized
categories, ordered by descending date. -/
def expenseTransactions (transactions : List Transaction) (taxYear : TaxYear) :
    List Transaction :=
  stableSortBy recencyLe (transactions.filter (fun t =>
    isDateInTaxYear t.date taxYear && decide (t.amount < 0) &&
      !isPersonal t.category && !isUncategorized t.category))

/-- The `expenseTransactions.find(...)` of `processFile`: the first
candidate in iteration order satisfying `matchPred`. -/
def findMatch (newInvoice : Invoice) (transactions : List Transaction)
    (taxYear : TaxYear) : Option Transaction :=
  (expenseTransactions transactions taxYear).find? (matchPred newInvoice)

/-- The state update of `processFile`: on a match, the invoice is stored
`matched` with the transaction id and the transaction becomes `reconciled`
with the invoice id, in one step; on no match the invoice is stored
`unmatched` and transactions are unchanged. -/
def processFileApply (s : RecordState) (newInvoice : Invoice) (taxYear : TaxYear) :
    RecordState :=
  match findMatch newInvoice s.transactions taxYear with
  | some m =>
      { transactions := s.transactions.map (fun t =>
          if t.id == m.id then
            { t with matchedInvoiceId := some newInvoice.id, status := .reconciled }
          else t)
        invoices := s.invoices ++
          [{ newInvoice with status := .matched, matchedTransactionId := some m.id }] }
  | none => { s with invoices := s.invoices ++ [newInvoice] }

/-- The section 8 matching scenario's invoice: amount 45.00 dated
2024-06-10. -/
def c7Invoice : Invoice :=
  { id := "i9", date := "2024-06-10", vendor := "Hardware", amount := 45,
    description := "Paint and brushes", status := .unmatched, matchedTransactionId := none }

/-- Candidate expense dated five days after the invoice, amount -45.05. -/
def c7Transaction15 : Transaction :=
  { id := "t15", date := "2024-06-15", description := "HW store", amount := -45.05,
    propertyId := "p1", category := .REPAIRS_101, status := .pending,
    source := .bank_upload, matchedInvoiceId := none, tag := none }

/-- Candidate expense dated ten days after the invoice, amount -45.05. -/
def c7Transaction20 : Transaction :=
  { id := "t20", date := "2024-06-20", description := "HW store", amount := -45.05,
    propertyId := "p1", category := .REPAIRS_101, status := .pending,
    source := .bank_upload, matchedInvoiceId := none, tag := none }

/-- Both candidates together. -/
def c7Transactions : List Transaction := [c7Transaction15, c7Transaction20]

/-! Theorems. -/

/-- The Boolean enum test agrees with propositional equality. -/
lemma isMortgageInterest_iff (c : HMRCCategory) :
    isMortgageInterest c = true ↔ c = HMRCCategory.MORT_INT_701 := by
  cases c <;> simp [isMortgageInterest]

/-- The Boolean personal test agrees with propositional equality. -/
lemma isPersonal_iff (c : HMRCCategory) :
    isPersonal c = true ↔ c = HMRCCategory.PERSONAL_000 := by
  cases c <;> simp [isPersonal]

/-- The Boolean uncategorized test agrees with propositional equality. -/
lemma isUncategorized_iff (c : HMRCCategory) :
    isUncategorized c = true ↔ c = HMRCCategory.UNCATEGORIZED := by
  cases c <;> simp [isUncategorized]

/-- C5: for the scenario set (gross income 12000, other expenses 2000,
finance costs 5000, supplemental income 0) the engine returns taxable
profit 10000, total income 10000, allowance 12570 absorbing it so net
taxable income is 0, gross tax before relief 0, relief min(1000, 0) = 0,
and final tax 0. -/
theorem C5_tax_scenario :
    (estimate c5Transactions TaxYear.y2024_2025 0).rentalIncome = 12000 ∧
    (estimate c5Transactions TaxYear.y2024_2025 0).otherExpenses = 2000 ∧
    (estimate c5Transactions TaxYear.y2024_2025 0).financeCosts = 5000 ∧
    (estimate c5Transactions TaxYear.y2024_2025 0).taxableProfit = 10000 ∧
    (estimate c5Transactions TaxYear.y2024_2025 0).totalIncome = 10000 ∧
    (estimate c5Transactions TaxYear.y2024_2025 0).allowance = 12570 ∧
    (estimate c5Transactions TaxYear.y2024_2025 0).taxableIncome = 0 ∧
    (estimate c5Transactions TaxYear.y2024_2025 0).estimatedTaxBeforeRelief = 0 ∧
    (estimate c5Transactions TaxYear.y2024_2025 0).financeCostRelief =
      min ((estimate c5Transactions TaxYear.y2024_2025 0).financeCosts * 0.20) 0 ∧
    (estimate c5Transactions TaxYear.y2024_2025 0).financeCostRelief = 0 ∧
    (estimate c5Transactions TaxYear.y2024_2025 0).finalEstimatedTax = 0 := by
  have hy : yearTransactions c5Transactions TaxYear.y2024_2025 = c5Transactions := rfl
  have hri : rentalIncome c5Transactions = 12000 := by
    norm_num [rentalIncome, c5Transactions, List.filter]
  have hfc : financeCosts c5Transactions = 5000 := by
    norm_num [financeCosts, c5Transactions, List.filter, isMortgageInterest]
  have hoe : otherExpenses c5Transactions = 2000 := by
    norm_num [otherExpenses, c5Transactions, List.filter, isMortgageInterest]
  norm_num [estimate, hy, hri, hfc, hoe, allowanceFor, taxableIncomeFor,
    taxBeforeReliefOf, basicTaxOf, amountInBasic, remainingAfterBasic, higherTaxOf,
    remainingAfterHigher, additionalTaxOf, basicBand, higherBand, min_def, max_def]

/-- C1: the engine's deductible-expense sum counts personal-category and
uncategorized negative transactions. On a period set holding a personal
expense of 100, an uncategorized expense of 50 and a repairs expense of 30,
the source's `otherExpenses` is 180, while the sum the claim (and spec,
sections 4.4/8) describes — excluding finance-cost, personal and
uncategorized — is 30. The filter at `TaxEstimator.tsx` line 28 excludes
only `MORT_INT_701`. -/
theorem C1_otherExpenses_includes_personal :
    (estimate c1Transactions TaxYear.y2024_2025 0).otherExpenses = 180 ∧
    otherExpensesSpec (yearTransactions c1Transactions TaxYear.y2024_2025) = 30 := by
  have hy : yearTransactions c1Transactions TaxYear.y2024_2025 = c1Transactions := rfl
  constructor
  · show otherExpenses (yearTransactions c1Transactions TaxYear.y2024_2025) = 180
    rw [hy]
    norm_num [otherExpenses, c1Transactions, List.filter, isMortgageInterest]
  · rw [hy]
    norm_num [otherExpensesSpec, c1Transactions, List.filter, isMortgageInterest,
      isPersonal, isUncategorized]

/-! Algebraic facts about the engine: nonnegativity and monotonicity. -/

/-- Finance costs are a sum of absolute values, hence nonnegative. -/
lemma financeCosts_nonneg (yearTs : List Transaction) : 0 ≤ financeCosts yearTs := by
  refine List.sum_nonneg ?_
  intro x hx
  obtain ⟨t, -, rfl⟩ := List.mem_map.mp hx
  exact abs_nonneg _

/-- Net taxable income is clamped at zero. -/
lemma taxableIncomeFor_nonneg (totalIncome : ℚ) : 0 ≤ taxableIncomeFor totalIncome :=
  le_max_left 0 _

/-- Each band taxes a nonnegative slice at a nonnegative rate. -/
lemma taxBeforeReliefOf_nonneg {ti : ℚ} (h : 0 ≤ ti) : 0 ≤ taxBeforeReliefOf ti := by
  unfold taxBeforeReliefOf basicTaxOf higherTaxOf additionalTaxOf
  have h1 : 0 ≤ amountInBasic ti * 0.20 :=
    mul_nonneg (le_min h (by norm_num [basicBand])) (by norm_num)
  have h2 : 0 ≤ if 0 < remainingAfterBasic ti then
      min (remainingAfterBasic ti) higherBand * 0.40 else 0 := by
    split_ifs with hr
    · exact mul_nonneg (le_min hr.le (by norm_num [higherBand])) (by norm_num)
    · exact le_refl 0
  have h3 : 0 ≤ if 0 < remainingAfterHigher ti then
      remainingAfterHigher ti * 0.45 else 0 := by
    split_ifs with hr
    · exact mul_nonneg hr.le (by norm_num)
    · exact le_refl 0
  linarith

/-- The subtraction of the tapered allowance is monotone in total income:
below the taper threshold the allowance is constant, and inside the taper
the allowance shrinks by half a unit per unit of income. -/
lemma sub_allowance_mono {x y : ℚ} (h : x ≤ y) :
    x - allowanceFor x ≤ y - allowanceFor y := by
  unfold allowanceFor
  split_ifs with hx hy hy
  · rcases le_total (12570 - (x - 100000) / 2) 0 with h1 | h1 <;>
      rcases le_total (12570 - (y - 100000) / 2) 0 with h2 | h2
    · rw [max_eq_left h1, max_eq_left h2]; linarith
    · rw [max_eq_left h1, max_eq_right h2]; linarith
    · rw [max_eq_right h1, max_eq_left h2]; linarith
    · rw [max_eq_right h1, max_eq_right h2]; linarith
  · exact absurd (lt_of_lt_of_le hx h) hy
  · rcases le_total (12570 - (y - 100000) / 2) 0 with h2 | h2
    · rw [max_eq_left h2]; linarith
    · rw [max_eq_right h2]; linarith
  · linarith

/-- Net taxable income is monotone in total income. -/
lemma taxableIncomeFor_mono {x y : ℚ} (h : x ≤ y) :
    taxableIncomeFor x ≤ taxableIncomeFor y :=
  max_le_max le_rfl (sub_allowance_mono h)

/-- The slice left after the basic band, in closed form. -/
lemma remainingAfterBasic_eq (t : ℚ) :
    remainingAfterBasic t = max (t - basicBand) 0 := by
  unfold remainingAfterBasic amountInBasic
  rcases le_total t basicBand with h | h
  · rw [min_eq_left h, max_eq_right (by linarith)]; ring
  · rw [min_eq_right h, max_eq_left (by linarith)]

/-- The higher-band tax, in closed form. -/
lemma higherTaxOf_eq (t : ℚ) :
    higherTaxOf t = min (max (t - basicBand) 0) higherBand * 0.40 := by
  unfold higherTaxOf
  rw [remainingAfterBasic_eq]
  split_ifs with h
  · rfl
  · push_neg at h
    have h0 : max (t - basicBand) 0 = 0 := le_antisymm h (le_max_right _ _)
    rw [h0, min_eq_left (by norm_num [higherBand])]
    ring

/-- The slice left after the higher band, in closed form. -/
lemma remainingAfterHigher_eq (t : ℚ) :
    remainingAfterHigher t = max (t - basicBand - higherBand) 0 := by
  unfold remainingAfterHigher
  rw [remainingAfterBasic_eq]
  split_ifs with h
  · rcases le_total (t - basicBand) 0 with h2 | h2
    · rw [max_eq_right h2] at h
      exact absurd h (lt_irrefl 0)
    · rw [max_eq_left h2]
      rcases le_total (t - basicBand) higherBand with h3 | h3
      · rw [min_eq_left h3, max_eq_right (by linarith)]; ring
      · rw [min_eq_right h3, max_eq_left (by linarith)]
  · push_neg at h
    have h0 : max (t - basicBand) 0 = 0 := le_antisymm h (le_max_right _ _)
    have h2 : t - basicBand ≤ 0 := by
      by_contra h3
      push_neg at h3
      rw [max_eq_left h3.le] at h0
      linarith
    rw [h0, max_eq_right (by norm_num [higherBand]; linarith)]
    ring

/-- The additional-band tax, in closed form. -/
lemma additionalTaxOf_eq (t : ℚ) :
    additionalTaxOf t = max (t - basicBand - higherBand) 0 * 0.45 := by
  unfold additionalTaxOf
  rw [remainingAfterHigher_eq]
  split_ifs with h
  · rfl
  · push_neg at h
    have h0 : max (t - basicBand - higherBand) 0 = 0 := le_antisymm h (le_max_right _ _)
    rw [h0]; ring

/-- Banded tax is monotone in net taxable income. -/
lemma taxBeforeReliefOf_mono {a b : ℚ} (h : a ≤ b) :
    taxBeforeReliefOf a ≤ taxBeforeReliefOf b := by
  unfold taxBeforeReliefOf basicTaxOf amountInBasic
  rw [higherTaxOf_eq, higherTaxOf_eq, additionalTaxOf_eq, additionalTaxOf_eq]
  have h1 : min a basicBand ≤ min b basicBand := min_le_min h le_rfl
  have h2 : min (max (a - basicBand) 0) higherBand ≤
      min (max (b - basicBand) 0) higherBand :=
    min_le_min (max_le_max (by linarith) le_rfl) le_rfl
  have h3 : max (a - basicBand - higherBand) 0 ≤ max (b - basicBand - higherBand) 0 :=
    max_le_max (by linarith) le_rfl
  have g1 := mul_le_mul_of_nonneg_right h1 (by norm_num : (0:ℚ) ≤ 0.20)
  have g2 := mul_le_mul_of_nonneg_right h2 (by norm_num : (0:ℚ) ≤ 0.40)
  have g3 := mul_le_mul_of_nonneg_right h3 (by norm_num : (0:ℚ) ≤ 0.45)
  linarith

/-- C8: gross tax before relief — the banded tax computed after the
allowance taper — is monotonically non-decreasing in total income. The
`estimatedTaxBeforeRelief` field of `estimate` is `grossTaxAt` of the
estimate's total income by definition. -/
theorem C8_band_monotonicity (x y : ℚ) (h : x ≤ y) : grossTaxAt x ≤ grossTaxAt y :=
  taxBeforeReliefOf_mono (taxableIncomeFor_mono h)

/-- Witness for C8 at total incomes 50000 and 130000. -/
theorem C8_band_monotonicity_witness : grossTaxAt 50000 ≤ grossTaxAt 130000 :=
  C8_band_monotonicity 50000 130000 (by norm_num)

/-- The engine's gross-tax field is the banded tax at its total income. -/
lemma estimate_taxBeforeRelief_def (transactions : List Transaction) (taxYear : TaxYear)
    (otherIncome : ℚ) :
    (estimate transactions taxYear otherIncome).estimatedTaxBeforeRelief =
      grossTaxAt ((estimate transactions taxYear otherIncome).totalIncome) := rfl

/-- C9: relief is `min(finance costs × 0.20, gross tax before relief)`,
lies between 0 and the gross tax, and the final tax is nonnegative, for
every transaction set, period and supplemental income. -/
theorem C9_relief_bounds (transactions : List Transaction) (taxYear : TaxYear)
    (otherIncome : ℚ) :
    0 ≤ (estimate transactions taxYear otherIncome).financeCostRelief ∧
    (estimate transactions taxYear otherIncome).financeCostRelief ≤
      (estimate transactions taxYear otherIncome).estimatedTaxBeforeRelief ∧
    (estimate transactions taxYear otherIncome).financeCostRelief =
      min ((estimate transactions taxYear otherIncome).financeCosts * 0.20)
        ((estimate transactions taxYear otherIncome).estimatedTaxBeforeRelief) ∧
    0 ≤ (estimate transactions taxYear otherIncome).finalEstimatedTax := by
  have hfc : 0 ≤ financeCosts (yearTransactions transactions taxYear) :=
    financeCosts_nonneg _
  have htbr : 0 ≤ taxBeforeReliefOf (taxableIncomeFor
      (max 0 (rentalIncome (yearTransactions transactions taxYear) -
        otherExpenses (yearTransactions transactions taxYear)) + otherIncome)) :=
    taxBeforeReliefOf_nonneg (taxableIncomeFor_nonneg _)
  refine ⟨?_, ?_, rfl, ?_⟩
  · exact le_min (mul_nonneg hfc (by norm_num)) htbr
  · exact min_le_right _ _
  · exact le_max_left 0 _

/-- C3: the identity schemes collide. 16 base64 characters encode exactly
the first 12 bytes of the input, so (a) two import rows agreeing on their
first 12 characters of `date-description-amount` share an identity even
with different amounts, and (b) a manual identity depends only on
`"manual-" ++` the date's first five characters, so two manual entries
dated in the same year share an identity regardless of description, amount
and creation timestamp. -/
theorem C3_identity_collisions :
    deterministicIdImport "2024-05-01" "TESCO" "-5" =
      deterministicIdImport "2024-05-01" "TESCO" "-7" ∧
    ("-5" : String) ≠ "-7" ∧
    deterministicIdManual "2024-05-01" "Cash for plumber" "-45" "1714500000000" =
      deterministicIdManual "2024-06-15" "Paint" "-20" "1718400000000" ∧
    ("2024-05-01" : String) ≠ "2024-06-15" := by
  refine ⟨by decide, by decide, by decide, by decide⟩

/-- C4: importing a row whose identity is fresh stores exactly one
transaction under that identity; importing the same row again against the
resulting set adds nothing and reports one skip. -/
theorem C4_import_idempotent (transactions : List Transaction) (item : ImportItem)
    (classify : ImportItem → AIResult) (properties : List Property)
    (hfresh : ∀ t ∈ transactions,
      t.id ≠ deterministicIdImport item.date item.description item.amountStr) :
    ((processImportedData transactions [item] classify properties).1.filter (fun t =>
        t.id == deterministicIdImport item.date item.description item.amountStr)).length
      = 1 ∧
    (processImportedData transactions [item] classify properties).2.1 = 1 ∧
    (processImportedData transactions [item] classify properties).2.2 = 0 ∧
    processImportedData
        (processImportedData transactions [item] classify properties).1
        [item] classify properties =
      ((processImportedData transactions [item] classify properties).1, 0, 1) := by
  have hcond : (transactions.map Transaction.id).contains
      (deterministicIdImport item.date item.description item.amountStr) = false := by
    rw [List.contains_eq_any_beq, List.any_eq_false]
    intro x hx
    obtain ⟨t, ht, rfl⟩ := List.mem_map.mp hx
    simpa using (hfresh t ht).symm
  have hstep : processImportedData transactions [item] classify properties =
      (transactions ++ [mkImportedTransaction item (classify item) properties], 1, 0) := by
    simp only [processImportedData, List.filterMap_cons, List.filterMap_nil,
      List.filter_cons, List.filter_nil, hcond]
    simp
  refine ⟨?_, ?_, ?_, ?_⟩
  · rw [hstep]
    rw [List.filter_append]
    have h1 : transactions.filter (fun t =>
        t.id == deterministicIdImport item.date item.description item.amountStr) = [] := by
      rw [List.filter_eq_nil_iff]
      intro t ht
      simpa using hfresh t ht
    rw [h1]
    simp [mkImportedTransaction]
  · rw [hstep]
  · rw [hstep]
  · rw [hstep]
    have hcond2 : ((transactions ++ [mkImportedTransaction item (classify item) properties]).map
        Transaction.id).contains
        (deterministicIdImport item.date item.description item.amountStr) = true := by
      rw [List.contains_eq_any_beq, List.any_eq_true]
      refine ⟨deterministicIdImport item.date item.description item.amountStr, ?_, by simp⟩
      rw [List.map_append]
      exact List.mem_append_right _ (by simp [mkImportedTransaction])
    simp only [processImportedData, List.filterMap_cons, List.filterMap_nil,
      List.filter_cons, List.filter_nil, hcond2]
    simp

/-- Witness for C4: a fresh import into the empty store, with a trivial
classifier and no properties. -/
theorem C4_import_idempotent_witness :
    ((processImportedData [] [⟨"2024-05-01", "TESCO", -5, "-5"⟩]
        (fun _ => ⟨HMRCCategory.UNCATEGORIZED, none⟩) []).1.filter (fun t =>
        t.id == deterministicIdImport "2024-05-01" "TESCO" "-5")).length = 1 ∧
    (processImportedData [] [⟨"2024-05-01", "TESCO", -5, "-5"⟩]
        (fun _ => ⟨HMRCCategory.UNCATEGORIZED, none⟩) []).2.1 = 1 ∧
    (processImportedData [] [⟨"2024-05-01", "TESCO", -5, "-5"⟩]
        (fun _ => ⟨HMRCCategory.UNCATEGORIZED, none⟩) []).2.2 = 0 ∧
    processImportedData
        (processImportedData [] [⟨"2024-05-01", "TESCO", -5, "-5"⟩]
          (fun _ => ⟨HMRCCategory.UNCATEGORIZED, none⟩) []).1
        [⟨"2024-05-01", "TESCO", -5, "-5"⟩]
        (fun _ => ⟨HMRCCategory.UNCATEGORIZED, none⟩) [] =
      ((processImportedData [] [⟨"2024-05-01", "TESCO", -5, "-5"⟩]
          (fun _ => ⟨HMRCCategory.UNCATEGORIZED, none⟩) []).1, 0, 1) :=
  C4_import_idempotent [] ⟨"2024-05-01", "TESCO", -5, "-5"⟩
    (fun _ => ⟨HMRCCategory.UNCATEGORIZED, none⟩) [] (by intro t ht; cases ht)

/-- C10: a manual entry is created with status `reconciled` and source
`manual`, while an imported row is created with status `pending` and source
`bank_upload`. -/
theorem C10_manual_entry_status :
    (∀ (manualDate manualDesc : String) (amount : ℚ) (amountStr manualPropId : String)
      (manualCat : HMRCCategory) (manualTag : Option OwnerTag) (nowStr : String),
        (handleManualAddTransaction manualDate manualDesc amount amountStr manualPropId
          manualCat manualTag nowStr).status = TransStatus.reconciled ∧
        (handleManualAddTransaction manualDate manualDesc amount amountStr manualPropId
          manualCat manualTag nowStr).source = TransSource.manual) ∧
    (∀ (item : ImportItem) (aiResult : AIResult) (properties : List Property),
        (mkImportedTransaction item aiResult properties).status = TransStatus.pending ∧
        (mkImportedTransaction item aiResult properties).source = TransSource.bank_upload) :=
  ⟨fun _ _ _ _ _ _ _ _ => ⟨rfl, rfl⟩, fun _ _ _ => ⟨rfl, rfl⟩⟩

/-- C2: link symmetry is not preserved by every mutation. From a state
where it holds, deleting the linked transaction leaves the invoice
`matched` with a dangling link, and toggling the linked transaction flips
it to `pending` while the invoice stays `matched`. (Invoice deletion, by
contrast, does cascade.) -/
theorem C2_link_symmetry_broken :
    linkSymmetricB c2State = true ∧
    linkSymmetricB (executeDeleteSingle c2State "t1") = false ∧
    linkSymmetricB (executeDeleteBulk c2State ["t1"]) = false ∧
    linkSymmetricB (toggleMatch c2State "t1") = false ∧
    linkSymmetricB (deleteInvoice c2State "i1") = true := by
  refine ⟨by decide, by decide, by decide, by decide, by decide⟩

/-- C6 counterexample: the orchestrator performs no membership validation.
A payload carrying the made-up code `"SOME_MADE_UP_CODE"` is returned
verbatim although it is outside the known enumeration (the claim requires
`UNCATEGORIZED` there), and an extraction failure yields confidence 0.5,
not the claimed 0. -/
theorem C6_no_validation_counterexample :
    (categorizeTransactionResult
        (.ok (some { category := some "SOME_MADE_UP_CODE", propertyId := none,
                     confidence := some 0.9 }))).category = "SOME_MADE_UP_CODE" ∧
    isKnownCategory "SOME_MADE_UP_CODE" = false ∧
    (categorizeTransactionResult (.ok none)).confidence = 0.5 := by
  refine ⟨rfl, by decide, rfl⟩

/-- C6 as amended: any non-empty category string is passed through
unvalidated, `UNCATEGORIZED` is substituted only for a missing or empty
category field, extraction failure yields `(UNCATEGORIZED, 0.5)`, and the
`(UNCATEGORIZED, 0)` fallback arises exactly from a thrown classifier
call. -/
theorem C6_fallback_behaviour :
    (∀ (c : String) (p : Option String) (q : Option ℚ), c ≠ "" →
      (categorizeTransactionResult
          (.ok (some { category := some c, propertyId := p, confidence := q }))).category = c) ∧
    (∀ (p : Option String) (q : Option ℚ),
      (categorizeTransactionResult
          (.ok (some { category := none, propertyId := p, confidence := q }))).category =
        "UNCATEGORIZED") ∧
    (categorizeTransactionResult (.ok none)).category = "UNCATEGORIZED" ∧
    (categorizeTransactionResult (.ok none)).confidence = 0.5 ∧
    categorizeTransactionResult (.error ()) =
      { category := "UNCATEGORIZED", propertyId := none, confidence := 0 } := by
  refine ⟨?_, ?_, rfl, rfl, rfl⟩
  · intro c p q hc
    show (if c == "" then "UNCATEGORIZED" else c) = c
    rw [if_neg]
    simpa using hc
  · intro p q
    rfl

/-- Sanity anchor of the date model: the epoch. -/
lemma daysFromCivil_epoch : daysFromCivil 1970 1 1 = 0 := by decide

/-- Sanity anchor of the date model across the 2024 leap day. -/
lemma daysFromCivil_leap : daysFromCivil 2024 3 1 - daysFromCivil 2024 2 28 = 2 := by decide

/-- The Boolean enum tests, negated forms. -/
lemma isPersonal_eq_false_iff (c : HMRCCategory) :
    isPersonal c = false ↔ c ≠ HMRCCategory.PERSONAL_000 := by
  cases c <;> simp [isPersonal]

/-- The negated uncategorized test. -/
lemma isUncategorized_eq_false_iff (c : HMRCCategory) :
    isUncategorized c = false ↔ c ≠ HMRCCategory.UNCATEGORIZED := by
  cases c <;> simp [isUncategorized]

/-- Membership is invariant under stable insertion. -/
lemma mem_sortInsert {α : Type} (le : α → α → Bool) (a x : α) (l : List α) :
    x ∈ sortInsert le a l ↔ x = a ∨ x ∈ l := by
  induction l with
  | nil => simp [sortInsert]
  | cons b bs ih =>
      by_cases h : le a b = true
      · simp [sortInsert, h]
      · simp only [sortInsert, if_neg h, List.mem_cons, ih]
        tauto

/-- Membership is invariant under the stable sort. -/
lemma mem_stableSortBy {α : Type} (le : α → α → Bool) (x : α) (l : List α) :
    x ∈ stableSortBy le l ↔ x ∈ l := by
  induction l with
  | nil => simp [stableSortBy]
  | cons b bs ih => simp [stableSortBy, mem_sortInsert, ih]

/-- The candidate pool: exactly the in-period, negative-amount
transactions outside the personal and uncategorized categories. -/
lemma mem_expenseTransactions (transactions : List Transaction) (taxYear : TaxYear)
    (t : Transaction) :
    t ∈ expenseTransactions transactions taxYear ↔
      t ∈ transactions ∧ isDateInTaxYear t.date taxYear = true ∧ t.amount < 0 ∧
        t.category ≠ HMRCCategory.PERSONAL_000 ∧
        t.category ≠ HMRCCategory.UNCATEGORIZED := by
  unfold expenseTransactions
  rw [mem_stableSortBy, List.mem_filter]
  simp [Bool.and_eq_true, Bool.not_eq_true', isPersonal_eq_false_iff,
    isUncategorized_eq_false_iff, and_assoc]

/-- A successful `find?` returns a satisfying element preceded only by
failing ones. -/
lemma find?_first {α : Type} (p : α → Bool) (l : List α) (a : α)
    (h : l.find? p = some a) :
    a ∈ l ∧ p a = true ∧
      ∃ l1 l2, l = l1 ++ a :: l2 ∧ ∀ x ∈ l1, p x = false := by
  induction l with
  | nil => cases h
  | cons b bs ih =>
      cases hb : p b with
      | true =>
          rw [List.find?_cons_of_pos _ hb] at h
          cases h
          exact ⟨List.mem_cons_self _ _, hb, [], bs, rfl, by intro x hx; cases hx⟩
      | false =>
          rw [List.find?_cons_of_neg _ (by simp [hb])] at h
          obtain ⟨hmem, hpa, l1, l2, heq, hfail⟩ := ih h
          refine ⟨List.mem_cons_of_mem _ hmem, hpa, b :: l1, l2, by simp [heq], ?_⟩
          intro x hx
          rcases List.mem_cons.mp hx with rfl | hx
          · exact hb
          · exact hfail x hx

/-- The amount tolerance holds for the scenario pair 45.00 and -45.05. -/
lemma c7_amount_close : |(|(-45.05 : ℚ)|) - (45 : ℚ)| < 0.10 := by
  rw [abs_of_neg (show (-45.05 : ℚ) < 0 by norm_num)]
  rw [abs_of_nonneg (show (0 : ℚ) ≤ - -45.05 - 45 by norm_num)]
  norm_num

/-- The five-day candidate passes the matching test. -/
lemma c7_matchPred_t15 : matchPred c7Invoice c7Transaction15 = true := by
  have hd15 : getTime "2024-06-15" = some 1718409600000 := by decide
  have hd10 : getTime "2024-06-10" = some 1717977600000 := by decide
  simp only [matchPred, c7Invoice, c7Transaction15, hd15, hd10]
  rw [decide_eq_true c7_amount_close]
  simp
  decide

/-- The ten-day candidate fails the matching test (day gap 10 > 7). -/
lemma c7_matchPred_t20 : matchPred c7Invoice c7Transaction20 = false := by
  have hd20 : getTime "2024-06-20" = some 1718841600000 := by decide
  have hd10 : getTime "2024-06-10" = some 1717977600000 := by decide
  simp only [matchPred, c7Invoice, c7Transaction20, hd20, hd10]
  simp
  intro h
  decide

/-- The candidate pool of the scenario, in iteration order: most recent
first. -/
lemma c7_expense_eval :
    expenseTransactions c7Transactions TaxYear.y2024_2025 =
      [c7Transaction20, c7Transaction15] := by
  have hfil : c7Transactions.filter (fun t =>
      isDateInTaxYear t.date TaxYear.y2024_2025 && decide (t.amount < 0) &&
        !isPersonal t.category && !isUncategorized t.category) = c7Transactions := by
    have h15 : isDateInTaxYear "2024-06-15" TaxYear.y2024_2025 = true := by decide
    have h20 : isDateInTaxYear "2024-06-20" TaxYear.y2024_2025 = true := by decide
    norm_num [c7Transactions, c7Transaction15, c7Transaction20, List.filter,
      h15, h20, isPersonal, isUncategorized]
  have hle : recencyLe c7Transaction15 c7Transaction20 = false := by decide
  unfold expenseTransactions
  rw [hfil]
  simp [c7Transactions, stableSortBy, sortInsert, hle]

/-- The singleton pool for the no-match half of the scenario. -/
lemma c7_expense_eval_single :
    expenseTransactions [c7Transaction20] TaxYear.y2024_2025 = [c7Transaction20] := by
  have h20 : isDateInTaxYear "2024-06-20" TaxYear.y2024_2025 = true := by decide
  unfold expenseTransactions
  have hfil : [c7Transaction20].filter (fun t =>
      isDateInTaxYear t.date TaxYear.y2024_2025 && decide (t.amount < 0) &&
        !isPersonal t.category && !isUncategorized t.category) = [c7Transaction20] := by
    norm_num [c7Transaction20, List.filter, h20, isPersonal, isUncategorized]
  rw [hfil]
  rfl

/-- C7: matching accepts exactly the unlinked candidates passing both the
0.10 amount tolerance and the 7-day window, searches only the
period-filtered expense pool, takes the first candidate in iteration
order, and in the section 8 scenario matches the 5-day candidate while a
10-day candidate alone yields no match. -/
theorem C7_invoice_matching :
    (∀ (inv : Invoice) (t : Transaction),
      matchPred inv t = true ↔
        t.matchedInvoiceId = none ∧
        |(|t.amount|) - inv.amount| < 0.10 ∧
        ∃ tms ims, getTime t.date = some tms ∧ getTime inv.date = some ims ∧
          ceilDivNat (tms - ims).natAbs (1000 * 60 * 60 * 24) ≤ 7) ∧
    (∀ (transactions : List Transaction) (taxYear : TaxYear) (t : Transaction),
      t ∈ expenseTransactions transactions taxYear ↔
        t ∈ transactions ∧ isDateInTaxYear t.date taxYear = true ∧ t.amount < 0 ∧
          t.category ≠ HMRCCategory.PERSONAL_000 ∧
          t.category ≠ HMRCCategory.UNCATEGORIZED) ∧
    (∀ (inv : Invoice) (transactions : List Transaction) (taxYear : TaxYear)
        (m : Transaction),
      findMatch inv transactions taxYear = some m →
        m ∈ expenseTransactions transactions taxYear ∧ matchPred inv m = true ∧
          ∃ l1 l2, expenseTransactions transactions taxYear = l1 ++ m :: l2 ∧
            ∀ t ∈ l1, matchPred inv t = false) ∧
    (∀ (inv : Invoice) (transactions : List Transaction) (taxYear : TaxYear),
      findMatch inv transactions taxYear = none →
        ∀ t ∈ expenseTransactions transactions taxYear, matchPred inv t = false) ∧
    findMatch c7Invoice c7Transactions TaxYear.y2024_2025 = some c7Transaction15 ∧
    findMatch c7Invoice [c7Transaction20] TaxYear.y2024_2025 = none := by
  refine ⟨?_, mem_expenseTransactions, ?_, ?_, ?_, ?_⟩
  · intro inv t
    cases hmi : t.matchedInvoiceId <;>
      cases ht : getTime t.date <;>
        cases hi : getTime inv.date <;>
          simp [matchPred, hmi, ht, hi]
  · intro inv transactions taxYear m h
    exact find?_first _ _ _ h
  · intro inv transactions taxYear h t ht
    simpa using List.find?_eq_none.mp h t ht
  · unfold findMatch
    rw [c7_expense_eval, List.find?_cons_of_neg _ (by simp [c7_matchPred_t20]),
      List.find?_cons_of_pos _ c7_matchPred_t15]
  · unfold findMatch
    rw [c7_expense_eval_single, List.find?_cons_of_neg _ (by simp [c7_matchPred_t20])]
    rfl

end RentalTax
